import Mathlib

/-!
Verification of the WhatsApp admin-panel client (state store, backend-client
mappers, push-channel reconnection, view-renderer helpers).

The JavaScript sources are shallowly embedded as pure Lean functions:

* `StateManager` (state.js)         → `StoreState`, `Store`, `setState`,
  `notifyCalls`, `updateConversation`, `addMessage`, `getFilteredConversations`
* `ApiService` (api.js)             → `mapConversationData`, `mapMessageData`,
  `convertBase64ToAudioUrl`, `getInitials`
* `SocketService` (socket.js)       → `socketStep`, `handleReconnection`
* `UIManager` (ui.js)               → `handleSendMessage`, `sortMessagesById`

JavaScript strings are Lean `String`s operated on through their character
lists; dynamically-typed fields that the code tests for truthiness are
embedded as `JsValue`; code that catches exceptions and returns `null`
is embedded as an `Option`-returning total function.  Side effects that the
claims talk about (subscriber callbacks, DOM toasts, socket emissions,
scheduled timers) are reified as explicit call logs / effect lists.
-/

/-- Character-list matching at the head: `headMatch needle hay` is true when
`needle` is an initial segment of `hay` (helper for `containsSeq`). -/
def headMatch [BEq α] : List α → List α → Bool
  | [], _ => true
  | _ :: _, [] => false
  | n :: ns, h :: hs => n == h && headMatch ns hs

/-- Substring/subsequence-run search: `containsSeq needle hay` is true when
`needle` occurs contiguously inside `hay`.  Embeds JavaScript
`String.prototype.includes` (and `.startsWith` via `headMatch`). -/
def containsSeq [BEq α] (needle : List α) : List α → Bool
  | [] => headMatch needle []
  | h :: hs => headMatch needle (h :: hs) || containsSeq needle hs

/-- JavaScript `hay.includes(needle)`. -/
def jsIncludes (hay needle : String) : Bool :=
  containsSeq needle.toList hay.toList

/-- JavaScript `s.toLowerCase()` (character-wise model). -/
def jsToLower (s : String) : String :=
  String.mk (s.toList.map Char.toLower)

/-- JavaScript `s.toUpperCase()` (character-wise model). -/
def jsToUpper (s : String) : String :=
  String.mk (s.toList.map Char.toUpper)

/-- JavaScript `s.trim()`. -/
def jsTrim (s : String) : String :=
  String.mk (((s.toList.dropWhile Char.isWhitespace).reverse.dropWhile
      Char.isWhitespace).reverse)

/-- Case-insensitive substring containment, as the spec words it
("case-insensitively contains"). -/
def caseInsensitiveContains (hay needle : String) : Bool :=
  jsIncludes (jsToLower hay) (jsToLower needle)

/-- A dynamically-typed JavaScript value, as far as the embedded code needs to
distinguish them: the code only ever tests these fields for truthiness. -/
inductive JsValue
  | undef
  | jsNull
  | jsBool (b : Bool)
  | jsNum (n : Int)
  | jsStr (s : String)
  | jsObj
deriving DecidableEq

/-- JavaScript truthiness of a `JsValue` (`undefined`, `null`, `false`, `0`
and `""` are falsy; any object is truthy). -/
def JsValue.truthy : JsValue → Bool
  | .undef => false
  | .jsNull => false
  | .jsBool b => b
  | .jsNum n => n != 0
  | .jsStr s => s != ""
  | .jsObj => true

/-- Truthiness of an optional string (`undefined`/`null`/`""` are falsy). -/
def optStringTruthy : Option String → Bool
  | none => false
  | some s => s != ""

/-- One entry of `CONFIG.MESSAGE_TYPES` (config.js): the `from` field of the
source is called `origin` here because `from` is a Lean keyword. -/
structure MessageType where
  origin : String
  label : String
  color : String
deriving DecidableEq

/-- The `CONFIG.MESSAGE_TYPES` lookup table of config.js, keyed by the numeric
wire code; keys other than 1–4 are absent. -/
def MESSAGE_TYPES : Nat → Option MessageType
  | 1 => some { origin := "bot", label := "🤖 Bot", color := "out" }
  | 2 => some { origin := "them", label := "👤 Client", color := "in" }
  | 3 => some { origin := "bot", label := "🤖 AI", color := "out" }
  | 4 => some { origin := "admin", label := "👨‍💼 Admin", color := "out" }
  | _ => none

/-- `CONFIG.DEFAULT_TAGS` of config.js. -/
def DEFAULT_TAGS : List String := ["lead", "fx"]

/-- `CONFIG.UI.CONNECTION_RETRY_DELAY` of config.js (milliseconds). -/
def CONNECTION_RETRY_DELAY : Nat := 5000

/-- `this.maxRetries` of SocketService (socket.js). -/
def socketMaxRetries : Nat := 5

/-- Membership in the base64 character class `[A-Za-z0-9+/]`. -/
def isB64Char (c : Char) : Bool :=
  ('A' ≤ c && c ≤ 'Z') || ('a' ≤ c && c ≤ 'z') || ('0' ≤ c && c ≤ '9') ||
    c == '+' || c == '/'

/-- The 6-bit value of a base64 alphabet character, `none` outside the
alphabet (`=` included). -/
def b64CharVal (c : Char) : Option Nat :=
  if 'A' ≤ c && c ≤ 'Z' then some (c.toNat - 65)
  else if 'a' ≤ c && c ≤ 'z' then some (c.toNat - 97 + 26)
  else if '0' ≤ c && c ≤ '9' then some (c.toNat - 48 + 52)
  else if c == '+' then some 62
  else if c == '/' then some 63
  else none

/-- Padding removal of the forgiving-base64 decode used by `atob`: when the
length is a multiple of four, up to two trailing `=` are removed. -/
def stripB64Padding (cs : List Char) : List Char :=
  if cs.length % 4 == 0 then
    match cs.reverse with
    | '=' :: '=' :: rest => rest.reverse
    | '=' :: rest => rest.reverse
    | _ => cs
  else cs

/-- Regroup decoded 6-bit values into 8-bit bytes (4 → 3, with 2 → 1 and
3 → 2 for a trailing chunk). -/
def decodeB64Groups : List Nat → List Nat
  | a :: b :: c :: d :: rest =>
      (a * 4 + b / 16) :: ((b % 16) * 16 + c / 4) :: ((c % 4) * 64 + d) ::
        decodeB64Groups rest
  | [a, b] => [a * 4 + b / 16]
  | [a, b, c] => [a * 4 + b / 16, (b % 16) * 16 + c / 4]
  | _ => []

/-- The browser `atob` (forgiving-base64 decode) on whitespace-free input:
strip permissible padding, reject a length ≡ 1 (mod 4) or any character
outside the alphabet, and regroup the 6-bit values into bytes.  `none` embeds
the `InvalidCharacterError` that `atob` throws. -/
def atobDecode (s : String) : Option (List Nat) :=
  let cs := stripB64Padding s.toList
  if cs.length % 4 == 1 then none
  else
    match cs.mapM b64CharVal with
    | none => none
    | some vals => some (decodeB64Groups vals)

/-- Match of the regular expression `/^data:([^;]+);base64,/` used by
ApiService.convertBase64ToAudioUrl: on success returns the captured MIME type
and the remainder after the comma. -/
def matchDataUri (cs : List Char) : Option (List Char × List Char) :=
  if headMatch "data:".toList cs then
    let after := cs.drop 5
    let mime := after.takeWhile (fun c => c != ';')
    let rest := after.drop mime.length
    if mime.length != 0 && headMatch ";base64,".toList rest then
      some (mime, rest.drop 8)
    else none
  else none

/-- The MIME type captured from a leading data-URI, when present. -/
def dataUriMimeOf (s : String) : Option String :=
  (matchDataUri s.toList).map (fun x => String.mk x.1)

/-- The result of `base64Data.replace(/^data:[^;]+;base64,/, '')`: the payload
with any leading data-URI header stripped. -/
def strippedBase64 (s : String) : String :=
  match matchDataUri s.toList with
  | some x => String.mk x.2
  | none => s

/-- The validation regex `/^[A-Za-z0-9+/]*={0,2}$/` of
ApiService.convertBase64ToAudioUrl. -/
def validBase64Format (s : String) : Bool :=
  let cs := s.toList
  let body := cs.takeWhile isB64Char
  let rest := cs.drop body.length
  rest.length ≤ 2 && rest.all (fun c => c == '=')

/-- Magic-byte sniffing of ApiService.convertBase64ToAudioUrl: decode the
first 20 base64 characters and look for container signatures (`ftyp`, `ID3`
or `0xFFFB`, `OggS`, `RIFF`+`WAVE`); a failed decode keeps the current MIME
type (the inner `try`/`catch` of the source). -/
def sniffMime (current : String) (base64Audio : String) : String :=
  match atobDecode (String.mk (base64Audio.toList.take 20)) with
  | none => current
  | some bin =>
      if containsSeq [102, 116, 121, 112] bin then "audio/mp4"
      else if containsSeq [73, 68, 51] bin || headMatch [255, 251] bin then
        "audio/mpeg"
      else if containsSeq [79, 103, 103, 83] bin then "audio/ogg"
      else if containsSeq [82, 73, 70, 70] bin &&
          containsSeq [87, 65, 86, 69] bin then "audio/wav"
      else current

/-- A blob URL handed to the audio element: a locally dereferenceable handle
to the decoded bytes together with the detected MIME type. -/
structure AudioHandle where
  mime : String
  bytes : List Nat
deriving DecidableEq

/-- ApiService.convertBase64ToAudioUrl: reject a falsy payload, extract and
strip any data-URI header, validate the remainder against the base64 regex,
detect the MIME type, decode, and produce the handle.  `none` embeds every
`return null` path, including the outer `catch` around the full `atob`. -/
def convertBase64ToAudioUrl (base64Data : String) : Option AudioHandle :=
  if base64Data = "" then none
  else
    let mimeType := (dataUriMimeOf base64Data).getD "audio/mp4"
    let base64Audio := strippedBase64 base64Data
    if validBase64Format base64Audio then
      match atobDecode base64Audio with
      | some bytes => some { mime := sniffMime mimeType base64Audio, bytes := bytes }
      | none => none
    else none

/-- A payload is well-formed base64 exactly when the source accepts it: it
matches the validation regex and `atob` decodes it. -/
def wellFormedBase64 (s : String) : Bool :=
  validBase64Format s && (atobDecode s).isSome

/-- A raw message record as received on the wire
(`{id, typo, message, isaudio}`). -/
structure RawMessage where
  id : Int
  typo : Nat
  message : Option String
  isaudio : Bool
deriving DecidableEq

/-- A message record produced by ApiService.mapMessageData.  The source's
`from` field is called `origin` (Lean keyword); the `timestamp := new Date()`
field is not modelled (wall-clock, irrelevant to every claim). -/
structure MappedMessage where
  id : Int
  origin : String
  type : Nat
  label : String
  color : String
  text : Option String
  isAudio : Bool
  audioData : Option String
  audioUrl : Option AudioHandle
deriving DecidableEq

/-- ApiService.mapMessageData: look the wire code up in `MESSAGE_TYPES`
(falling back to the unknown/incoming entry), copy the payload, and on a
truthy audio flag with a truthy payload replace the display text with the
placeholder and derive the playable handle. -/
def mapMessageData (msg : RawMessage) : MappedMessage :=
  let messageType := (MESSAGE_TYPES msg.typo).getD
    { origin := "unknown", label := "Unknown", color := "in" }
  if msg.isaudio && optStringTruthy msg.message then
    { id := msg.id, origin := messageType.origin, type := msg.typo,
      label := messageType.label, color := messageType.color,
      text := some "🎵 Audio Message", isAudio := msg.isaudio,
      audioData := msg.message,
      audioUrl := convertBase64ToAudioUrl (msg.message.getD "") }
  else
    { id := msg.id, origin := messageType.origin, type := msg.typo,
      label := messageType.label, color := messageType.color,
      text := msg.message, isAudio := msg.isaudio,
      audioData := none, audioUrl := none }

/-- A raw conversation record of the `GET /m/get/all` envelope
(`{name, number, interview, history}`); `interview` is kept dynamically typed
because the source only tests it for truthiness. -/
structure RawConversation where
  name : Option String
  number : Option String
  interview : JsValue
  history : Option (List RawMessage)
deriving DecidableEq

/-- A conversation record produced by ApiService.mapConversationData (the
backend-client mapper output; `name`/`initials` stay optional because the
source tolerates an absent name). -/
structure ApiConversation where
  id : String
  name : Option String
  initials : Option String
  number : Option String
  src : String
  tags : List String
  unread : Nat
  needsAttention : Bool
  interview : JsValue
  messages : List MappedMessage
deriving DecidableEq

/-- JavaScript `cs.split(' ')` on the character list: chunks between single
spaces, empty chunks kept, accumulated in reverse in `acc`. -/
def splitOnSpaceAux : List Char → List Char → List (List Char)
  | [], acc => [acc.reverse]
  | c :: rest, acc =>
      if c == ' ' then acc.reverse :: splitOnSpaceAux rest []
      else splitOnSpaceAux rest (c :: acc)

/-- JavaScript `name.split(' ')`. -/
def splitOnSpace (cs : List Char) : List (List Char) :=
  splitOnSpaceAux cs []

/-- Maximal nonempty runs of characters not satisfying `p` (the tokens of a
string under separator class `p`); used to state token-based properties
independently of the `split`/`join` route the source takes. -/
def tokensByAux (p : Char → Bool) : List Char → List Char → List (List Char)
  | [], acc => if acc.isEmpty then [] else [acc.reverse]
  | c :: rest, acc =>
      if p c then
        if acc.isEmpty then tokensByAux p rest []
        else acc.reverse :: tokensByAux p rest []
      else tokensByAux p rest (c :: acc)

/-- The tokens of `cs` separated by the character class `p`. -/
def tokensBy (p : Char → Bool) (cs : List Char) : List (List Char) :=
  tokensByAux p cs []

/-- Modelled from the spec: initials formed from the first character of each
whitespace-separated token, uppercased and truncated to two characters — the
spec's wording for `getInitials`, to be compared with the source's
space-splitting implementation. -/
def whitespaceTokenInitials (name : String) : String :=
  String.mk ((((tokensBy Char.isWhitespace name.toList).filterMap
    List.head?).map Char.toUpper).take 2)

/-- ApiService.getInitials:
`name?.split(' ').map(n => n[0]).join('').toUpperCase().slice(0, 2)`.
`join` drops the `undefined` first characters of empty chunks, which is the
`filterMap List.head?`. -/
def getInitials (name : Option String) : Option String :=
  name.map fun n =>
    String.mk ((((splitOnSpace n.toList).filterMap List.head?).map
      Char.toUpper).take 2)

/-- ApiService.mapConversationData: the raw-record-to-conversation mapper of
the backend client. -/
def mapConversationData (number : RawConversation) (index : Nat) :
    ApiConversation :=
  { id := "c" ++ toString (index + 1),
    name := number.name,
    initials := getInitials number.name,
    number := number.number,
    src := "Whats",
    tags := DEFAULT_TAGS,
    unread := 0,
    needsAttention := !number.interview.truthy,
    interview := number.interview,
    messages := (number.history.getD []).map mapMessageData }

/-- A conversation as held by the state store (StateManager).  By the time a
conversation reaches the store the code accesses `name`, `tags` and
`messages` unconditionally, so they are total here; `number` stays optional
because `getFilteredConversations` guards it. -/
structure Conversation where
  id : String
  name : String
  initials : String
  number : Option String
  src : String
  tags : List String
  unread : Nat
  needsAttention : Bool
  messages : List MappedMessage
deriving DecidableEq

/-- The `this.state` object of StateManager. -/
structure StoreState where
  conversations : List Conversation
  activeConversationId : Option String
  isManualMode : Bool
  isLoading : Bool
  searchQuery : String
  selectedFilter : String
deriving DecidableEq

/-- The initial state built in the StateManager constructor (and by
`reset()`). -/
def initialState : StoreState :=
  { conversations := [],
    activeConversationId := none,
    isManualMode := false,
    isLoading := false,
    searchQuery := "",
    selectedFilter := "all" }

/-- A partial update passed to `setState`: any subset of the state's keys
(the object spread `{ ...this.state, ...updates }` over the fixed key set). -/
structure StateUpdate where
  conversations : Option (List Conversation) := none
  activeConversationId : Option (Option String) := none
  isManualMode : Option Bool := none
  isLoading : Option Bool := none
  searchQuery : Option String := none
  selectedFilter : Option String := none

/-- The shallow merge `{ ...this.state, ...updates }`. -/
def mergeState (s : StoreState) (u : StateUpdate) : StoreState :=
  { conversations := u.conversations.getD s.conversations,
    activeConversationId := u.activeConversationId.getD s.activeConversationId,
    isManualMode := u.isManualMode.getD s.isManualMode,
    isLoading := u.isLoading.getD s.isLoading,
    searchQuery := u.searchQuery.getD s.searchQuery,
    selectedFilter := u.selectedFilter.getD s.selectedFilter }

/-- A subscriber callback: it receives the state snapshot and either returns
or throws (the `Except.error` case). -/
def Subscriber : Type := StoreState → Except String Unit

/-- The StateManager instance: live state plus the subscriber list. -/
structure Store where
  state : StoreState
  subscribers : List Subscriber

/-- One observed subscriber invocation: the snapshot it was handed and its
outcome. -/
def SubscriberCall : Type := StoreState × Except String Unit

/-- StateManager.notify: invoke every subscriber in order with the snapshot;
a throwing callback is caught (and logged) and the loop continues — the
recursion proceeds to `rest` on `Except.error` exactly as on `Except.ok`. -/
def notifyCalls : List Subscriber → StoreState → List SubscriberCall
  | [], _ => []
  | cb :: rest, s =>
      match cb s with
      | Except.ok u => (s, Except.ok u) :: notifyCalls rest s
      | Except.error e => (s, Except.error e) :: notifyCalls rest s

/-- StateManager.setState: shallow-merge the update into the state, then
notify; returns the new store and the log of subscriber invocations. -/
def setState (st : Store) (u : StateUpdate) : Store × List SubscriberCall :=
  let s := mergeState st.state u
  ({ st with state := s }, notifyCalls st.subscribers s)

/-- StateManager.subscribe: append the callback to the subscriber list. -/
def subscribe (st : Store) (cb : Subscriber) : Store :=
  { st with subscribers := st.subscribers ++ [cb] }

/-- The list surgery of StateManager.updateConversation: replace the first
conversation with a matching id (the object spread of a full payload over the
found entry replaces every field), or push the payload at the end. -/
def upsertConv : List Conversation → Conversation → List Conversation
  | [], conv => [conv]
  | c :: rest, conv =>
      if c.id == conv.id then conv :: rest else c :: upsertConv rest conv

/-- StateManager.updateConversation: upsert by id, then `setState`. -/
def updateConversation (st : Store) (conv : Conversation) :
    Store × List SubscriberCall :=
  setState st { conversations := some (upsertConv st.state.conversations conv) }

/-- The list surgery of StateManager.addMessage: append the message to the
first conversation with a matching id (`find` returns the first match). -/
def addMessageToFirst (conversationId : String) (message : MappedMessage) :
    List Conversation → List Conversation
  | [] => []
  | c :: rest =>
      if c.id == conversationId then
        { c with messages := c.messages ++ [message] } :: rest
      else c :: addMessageToFirst conversationId message rest

/-- StateManager.addMessage: when `find` locates the conversation, append the
message and `setState`; otherwise do nothing at all (no notification). -/
def addMessage (st : Store) (conversationId : String)
    (message : MappedMessage) : Store × List SubscriberCall :=
  if st.state.conversations.any (fun c => c.id == conversationId) then
    setState st
      { conversations :=
          some (addMessageToFirst conversationId message
            st.state.conversations) }
  else (st, [])

/-- The search callback of StateManager.getFilteredConversations: the name
and each tag are lowercased before the containment test, the phone number is
tested as-is against the lowercased query (and guarded for truthiness). -/
def conversationMatchesSearch (query : String) (c : Conversation) : Bool :=
  let matchesName := jsIncludes (jsToLower c.name) query
  let matchesTags := c.tags.any (fun tag => jsIncludes (jsToLower tag) query)
  let matchesNumber :=
    match c.number with
    | some num => jsIncludes num query
    | none => false
  matchesName || matchesTags || matchesNumber

/-- StateManager.getFilteredConversations: restrict by the search query when
it is nonempty (truthy), then apply the selected filter (`switch` with cases
`unread`, `attention`, and a no-op `all`/default). -/
def getFilteredConversations (s : StoreState) : List Conversation :=
  let filtered := s.conversations
  let filtered :=
    if s.searchQuery = "" then filtered
    else filtered.filter (conversationMatchesSearch (jsToLower s.searchQuery))
  if s.selectedFilter = "unread" then
    filtered.filter (fun c => decide (0 < c.unread))
  else if s.selectedFilter = "attention" then
    filtered.filter (fun c => c.needsAttention)
  else filtered

/-- An observable effect of a UIManager handler. -/
inductive UIEffect
  | emitSend (message : String)
  | toast (message : String)
  | hideTypingIndicator
deriving DecidableEq

/-- UIManager.handleSendMessage: trim the input; an empty result is ignored;
without manual mode the send is rejected with a toast (input untouched, no
emission); otherwise emit and clear the input.  Returns the (unchanged) store
state, the new input-field value, and the emitted effects. -/
def handleSendMessage (state : StoreState) (messageInputValue : String) :
    StoreState × String × List UIEffect :=
  let message := jsTrim messageInputValue
  if message = "" then (state, messageInputValue, [])
  else if !state.isManualMode then
    (state, messageInputValue,
      [UIEffect.toast "Activate \"Take control\" to intervene."])
  else
    (state, "",
      [UIEffect.emitSend message, UIEffect.hideTypingIndicator])

/-- The comparator `(a, b) => a.id - b.id` of
UIManager.renderConversationThread, as the ordering it sorts by. -/
def msgIdLe (a b : MappedMessage) : Prop := a.id ≤ b.id

instance : DecidableRel msgIdLe := fun a b =>
  inferInstanceAs (Decidable (a.id ≤ b.id))

instance : IsTotal MappedMessage msgIdLe :=
  ⟨fun a b => Int.le_total a.id b.id⟩

instance : IsTrans MappedMessage msgIdLe :=
  ⟨fun _ _ _ h1 h2 => le_trans h1 h2⟩

/-- The `sortedMessages` computation of UIManager.renderConversationThread:
`[...conversation.messages].sort((a, b) => a.id - b.id)` — a stable sort of
the message array by ascending numeric id. -/
def sortMessagesById (msgs : List MappedMessage) : List MappedMessage :=
  List.insertionSort msgIdLe msgs

/-- The order in which UIManager.renderConversationThread materializes the
active conversation's messages (both the plain and the virtual-scroll path
walk `sortedMessages` front to back). -/
def renderedMessageOrder (conversation : Conversation) : List MappedMessage :=
  sortMessagesById conversation.messages

/-- An event the SocketService reacts to on its live connection. -/
inductive SocketEvent
  | disconnect
  | connect
deriving DecidableEq

/-- An observable action of the SocketService event handlers. -/
inductive SocketAction
  | callOnDisconnect
  | scheduleReconnect (delayMs : Nat)
  | terminalError
  | callOnConnect
deriving DecidableEq

/-- SocketService.handleReconnection: below the retry ceiling, bump the
counter and schedule exactly one `init()` after the fixed delay; at the
ceiling, surface the terminal error and schedule nothing. -/
def handleReconnection (retryCount : Nat) : Nat × List SocketAction :=
  if retryCount < socketMaxRetries then
    (retryCount + 1, [SocketAction.scheduleReconnect CONNECTION_RETRY_DELAY])
  else
    (retryCount, [SocketAction.terminalError])

/-- The connect/disconnect handlers installed by
SocketService.setupEventListeners: `connect` resets the retry counter to zero,
`disconnect` runs the disconnect callback and then `handleReconnection`. -/
def socketStep (retryCount : Nat) : SocketEvent → Nat × List SocketAction
  | SocketEvent.connect => (0, [SocketAction.callOnConnect])
  | SocketEvent.disconnect =>
      let r := handleReconnection retryCount
      (r.1, SocketAction.callOnDisconnect :: r.2)

/-- A run of the push-channel client: fold `socketStep` over an event trace,
collecting each step's actions. -/
def socketRun (retryCount : Nat) : List SocketEvent → Nat × List (List SocketAction)
  | [] => (retryCount, [])
  | e :: es =>
      let r := socketStep retryCount e
      let rest := socketRun r.1 es
      (rest.1, r.2 :: rest.2)

/-! ### Shared lemmas -/

/-- Notification reaches every subscriber in order with the given snapshot,
regardless of which callbacks throw: the call log is exactly the subscriber
list mapped over the snapshot. -/
theorem notifyCalls_eq_map (subs : List Subscriber) (s : StoreState) :
    notifyCalls subs s = subs.map (fun cb => (s, cb s)) := by
  induction subs with
  | nil => rfl
  | cons cb rest ih =>
      cases h : cb s <;> simp [notifyCalls, h, ih]

theorem countP_upsertConv (l : List Conversation) (conv : Conversation) :
    (upsertConv l conv).countP (fun c => c.id == conv.id) =
      if l.countP (fun c => c.id == conv.id) = 0 then 1
      else l.countP (fun c => c.id == conv.id) := by
  induction l with
  | nil => simp [upsertConv, List.countP_cons]
  | cons c rest ih =>
      by_cases h : c.id == conv.id
      · simp [upsertConv, h, List.countP_cons]
      · simp only [upsertConv, h]
        simp only [Bool.false_eq_true, if_false]
        simp [List.countP_cons, h, ih]

theorem upsertConv_idem (l : List Conversation) (conv : Conversation) :
    upsertConv (upsertConv l conv) conv = upsertConv l conv := by
  induction l with
  | nil => simp [upsertConv]
  | cons c rest ih =>
      by_cases h : c.id == conv.id
      · simp [upsertConv, h]
      · simp [upsertConv, h, ih]

/-! ### C1 -/

/-- C1: every `setState(updates)` makes the state the shallow merge of the
previous state with the updates, and the subscriber call log is exactly the
current subscriber list, in subscription order, each invoked once with the
fully merged snapshot — in particular a throwing subscriber (an
`Except.error` outcome) never truncates the log, so later subscribers are
still invoked. -/
theorem setState_shallow_merge_and_notify (st : Store) (u : StateUpdate) :
    (setState st u).1.state =
      { conversations := u.conversations.getD st.state.conversations,
        activeConversationId :=
          u.activeConversationId.getD st.state.activeConversationId,
        isManualMode := u.isManualMode.getD st.state.isManualMode,
        isLoading := u.isLoading.getD st.state.isLoading,
        searchQuery := u.searchQuery.getD st.state.searchQuery,
        selectedFilter := u.selectedFilter.getD st.state.selectedFilter } ∧
    (setState st u).2 =
      st.subscribers.map
        (fun cb => ((setState st u).1.state, cb ((setState st u).1.state))) := by
  exact ⟨rfl, notifyCalls_eq_map st.subscribers (mergeState st.state u)⟩

/-! ### C7 -/

/-- C7 (counterexample to the claim as stated): the claim quantifies over
every state, but a store whose conversation list already holds two entries
with the same id keeps both of them — `updateConversation` merges into the
first match only — so after two identical calls the list still has two
entries for that id, not exactly one. -/
theorem updateConversation_twice_counterexample :
    ((updateConversation
        ((updateConversation
          { state :=
              { conversations :=
                  [{ id := "x", name := "Ana", initials := "A", number := none,
                     src := "Whats", tags := [], unread := 0,
                     needsAttention := false, messages := [] },
                   { id := "x", name := "Ana", initials := "A", number := none,
                     src := "Whats", tags := [], unread := 0,
                     needsAttention := false, messages := [] }],
                activeConversationId := none, isManualMode := false,
                isLoading := false, searchQuery := "", selectedFilter := "all" },
            subscribers := [] }
          { id := "x", name := "Ana", initials := "A", number := none,
            src := "Whats", tags := [], unread := 0,
            needsAttention := false, messages := [] }).1)
        { id := "x", name := "Ana", initials := "A", number := none,
          src := "Whats", tags := [], unread := 0,
          needsAttention := false, messages := [] }).1.state.conversations.countP
      (fun c => c.id == "x")) = 2 := by
  decide

/-- C7 (amended): `updateConversation` has upsert semantics — provided the
prior state holds at most one entry with the payload's id (the invariant the
store itself maintains from its empty initial state), two identical calls
leave exactly one entry with that id; moreover, unconditionally, the second
call merges into the existing entry rather than appending, so it leaves the
conversation list exactly as the first call left it. -/
theorem updateConversation_upsert_idempotent (st : Store) (conv : Conversation)
    (h : st.state.conversations.countP (fun c => c.id == conv.id) ≤ 1) :
    ((updateConversation (updateConversation st conv).1 conv).1.state.conversations.countP
        (fun c => c.id == conv.id)) = 1 ∧
    (updateConversation (updateConversation st conv).1 conv).1.state.conversations =
      (updateConversation st conv).1.state.conversations := by
  have hconv :
      (updateConversation st conv).1.state.conversations =
        upsertConv st.state.conversations conv := rfl
  have hconv2 :
      (updateConversation (updateConversation st conv).1 conv).1.state.conversations =
        upsertConv (upsertConv st.state.conversations conv) conv := rfl
  constructor
  · rw [hconv2, countP_upsertConv, countP_upsertConv]
    rcases Nat.lt_or_ge (st.state.conversations.countP (fun c => c.id == conv.id)) 1
      with h0 | h1
    · interval_cases h' : st.state.conversations.countP (fun c => c.id == conv.id)
      · simp
    · have : st.state.conversations.countP (fun c => c.id == conv.id) = 1 :=
        le_antisymm h h1
      simp [this]
  · rw [hconv2, hconv, upsertConv_idem]

/-- C7 witness: the amended theorem applied to a concrete store holding one
conversation with the payload's id. -/
theorem updateConversation_upsert_idempotent_witness :
    ((updateConversation
        ((updateConversation
          { state :=
              { conversations := [],
                activeConversationId := none, isManualMode := false,
                isLoading := false, searchQuery := "", selectedFilter := "all" },
            subscribers := [] }
          { id := "c1", name := "Ana", initials := "A", number := none,
            src := "Whats", tags := [], unread := 0,
            needsAttention := false, messages := [] }).1)
        { id := "c1", name := "Ana", initials := "A", number := none,
          src := "Whats", tags := [], unread := 0,
          needsAttention := false, messages := [] }).1.state.conversations.countP
      (fun c => c.id == "c1")) = 1 :=
  (updateConversation_upsert_idempotent
    { state :=
        { conversations := [],
          activeConversationId := none, isManualMode := false,
          isLoading := false, searchQuery := "", selectedFilter := "all" },
      subscribers := [] }
    { id := "c1", name := "Ana", initials := "A", number := none,
      src := "Whats", tags := [], unread := 0,
      needsAttention := false, messages := [] }
    (by decide)).1

/-! ### C10 -/

/-- C10: `addMessage` with an id matching no conversation leaves the whole
store untouched and produces no subscriber call (no `setState`); with a
matching id it appends the message to the first matching conversation's
message sequence, leaves every other field and conversation unchanged, and
notifies every subscriber exactly once with the updated snapshot. -/
theorem addMessage_upsert_or_noop (st : Store) (conversationId : String)
    (message : MappedMessage) :
    ((∀ c ∈ st.state.conversations, (c.id == conversationId) = false) →
      addMessage st conversationId message = (st, [])) ∧
    (∀ pre c post, st.state.conversations = pre ++ c :: post →
      (∀ c' ∈ pre, (c'.id == conversationId) = false) →
      (c.id == conversationId) = true →
      (addMessage st conversationId message).1.state =
        { st.state with
            conversations :=
              pre ++ { c with messages := c.messages ++ [message] } :: post } ∧
      (addMessage st conversationId message).2 =
        st.subscribers.map
          (fun cb => ((addMessage st conversationId message).1.state,
            cb ((addMessage st conversationId message).1.state)))) := by
  constructor
  · intro hnone
    have hany : st.state.conversations.any (fun c => c.id == conversationId) = false := by
      simp only [List.any_eq_false]
      intro c hc
      simp [hnone c hc]
    simp [addMessage, hany]
  · intro pre c post hsplit hpre hc
    have hany : st.state.conversations.any (fun c => c.id == conversationId) = true := by
      refine List.any_eq_true.mpr ⟨c, ?_, hc⟩
      rw [hsplit]
      exact List.mem_append_right _ (List.mem_cons_self _ _)
    have hsurg : addMessageToFirst conversationId message st.state.conversations =
        pre ++ { c with messages := c.messages ++ [message] } :: post := by
      rw [hsplit]
      clear hsplit hany
      induction pre with
      | nil => simp [addMessageToFirst, hc]
      | cons p ps ih =>
          have hp : (p.id == conversationId) = false := hpre p (by simp)
          have hps : ∀ c' ∈ ps, (c'.id == conversationId) = false := by
            intro c' hc'
            exact hpre c' (by simp [hc'])
          simp [addMessageToFirst, hp, ih hps]
    have key : addMessage st conversationId message =
        setState st
          { conversations :=
              some (addMessageToFirst conversationId message
                st.state.conversations) } := by
      simp [addMessage, hany]
    rw [key]
    constructor
    · simp [setState, mergeState, hsurg]
    · simp [setState, notifyCalls_eq_map, mergeState]

/-- C10 witness: the theorem applied to a concrete store — the matching id
appends and notifies the one subscriber once; a missing id is a no-op. -/
theorem addMessage_upsert_or_noop_witness :
    (addMessage
      { state :=
          { conversations :=
              [{ id := "c1", name := "Ana", initials := "A", number := none,
                 src := "Whats", tags := [], unread := 0,
                 needsAttention := false, messages := [] }],
            activeConversationId := none, isManualMode := false,
            isLoading := false, searchQuery := "", selectedFilter := "all" },
        subscribers := [] }
      "c2"
      { id := 1, origin := "them", type := 2, label := "👤 Client",
        color := "in", text := some "hola", isAudio := false,
        audioData := none, audioUrl := none }).1.state.conversations =
      [{ id := "c1", name := "Ana", initials := "A", number := none,
         src := "Whats", tags := [], unread := 0,
         needsAttention := false, messages := [] }] ∧
    (addMessage
      { state :=
          { conversations :=
              [{ id := "c1", name := "Ana", initials := "A", number := none,
                 src := "Whats", tags := [], unread := 0,
                 needsAttention := false, messages := [] }],
            activeConversationId := none, isManualMode := false,
            isLoading := false, searchQuery := "", selectedFilter := "all" },
        subscribers := [] }
      "c1"
      { id := 1, origin := "them", type := 2, label := "👤 Client",
        color := "in", text := some "hola", isAudio := false,
        audioData := none, audioUrl := none }).1.state.conversations =
      [{ id := "c1", name := "Ana", initials := "A", number := none,
         src := "Whats", tags := [], unread := 0, needsAttention := false,
         messages :=
           [{ id := 1, origin := "them", type := 2, label := "👤 Client",
              color := "in", text := some "hola", isAudio := false,
              audioData := none, audioUrl := none }] }] := by
  constructor
  · have h := (addMessage_upsert_or_noop
      { state :=
          { conversations :=
              [{ id := "c1", name := "Ana", initials := "A", number := none,
                 src := "Whats", tags := [], unread := 0,
                 needsAttention := false, messages := [] }],
            activeConversationId := none, isManualMode := false,
            isLoading := false, searchQuery := "", selectedFilter := "all" },
        subscribers := [] }
      "c2"
      { id := 1, origin := "them", type := 2, label := "👤 Client",
        color := "in", text := some "hola", isAudio := false,
        audioData := none, audioUrl := none }).1 (by decide)
    rw [h]
  · have h := ((addMessage_upsert_or_noop
      { state :=
          { conversations :=
              [{ id := "c1", name := "Ana", initials := "A", number := none,
                 src := "Whats", tags := [], unread := 0,
                 needsAttention := false, messages := [] }],
            activeConversationId := none, isManualMode := false,
            isLoading := false, searchQuery := "", selectedFilter := "all" },
        subscribers := [] }
      "c1"
      { id := 1, origin := "them", type := 2, label := "👤 Client",
        color := "in", text := some "hola", isAudio := false,
        audioData := none, audioUrl := none }).2 []
      { id := "c1", name := "Ana", initials := "A", number := none,
        src := "Whats", tags := [], unread := 0,
        needsAttention := false, messages := [] } [] rfl (by decide) (by decide)).1
    rw [h]
    decide

/-! ### C2 -/

/-- The search callback unfolded into its three explicit disjuncts. -/
theorem conversationMatchesSearch_iff (q : String) (c : Conversation) :
    conversationMatchesSearch q c = true ↔
      (jsIncludes (jsToLower c.name) q = true ∨
       (∃ tag ∈ c.tags, jsIncludes (jsToLower tag) q = true) ∨
       (∃ num, c.number = some num ∧ jsIncludes num q = true)) := by
  cases hn : c.number <;>
    simp [conversationMatchesSearch, List.any_eq_true, hn, or_assoc]

/-- C2 (amended): `getFilteredConversations` is pure (definitionally, in this
embedding), returns an order-preserving selection of the stored conversations
(a sublist), and keeps a conversation exactly when it passes the search
restriction — lowercased name or any lowercased tag contains the lowercased
query, or the phone number contains the lowercased query as an exact,
case-sensitive substring — and the selected filter (`unread`: positive unread
count; `attention`: needs-attention flag; anything else: no restriction). -/
theorem getFilteredConversations_pure_and_filters (s : StoreState) :
    getFilteredConversations s = getFilteredConversations s ∧
    (getFilteredConversations s).Sublist s.conversations ∧
    (∀ c, c ∈ getFilteredConversations s ↔
      (c ∈ s.conversations ∧
       (s.searchQuery ≠ "" →
         (jsIncludes (jsToLower c.name) (jsToLower s.searchQuery) = true ∨
          (∃ tag ∈ c.tags,
            jsIncludes (jsToLower tag) (jsToLower s.searchQuery) = true) ∨
          (∃ num, c.number = some num ∧
            jsIncludes num (jsToLower s.searchQuery) = true))) ∧
       (s.selectedFilter = "unread" → 0 < c.unread) ∧
       (s.selectedFilter = "attention" → c.needsAttention = true))) := by
  have hua : ("unread" : String) ≠ "attention" := by decide
  refine ⟨rfl, ?_, ?_⟩
  · simp only [getFilteredConversations]
    split_ifs <;>
      first
        | exact List.Sublist.refl _
        | exact List.filter_sublist _
        | exact (List.filter_sublist _).trans (List.filter_sublist _)
  · intro c
    by_cases hq : s.searchQuery = ""
    · by_cases hu : s.selectedFilter = "unread"
      · simp [getFilteredConversations, hq, hu, hua, List.mem_filter]
        try tauto
      · by_cases ha : s.selectedFilter = "attention"
        · simp [getFilteredConversations, hq, hu, ha, List.mem_filter]
          try tauto
        · simp [getFilteredConversations, hq, hu, ha]
          try tauto
    · by_cases hu : s.selectedFilter = "unread"
      · simp [getFilteredConversations, hq, hu, hua, List.mem_filter,
          conversationMatchesSearch_iff]
        exact fun _ => and_comm
      · by_cases ha : s.selectedFilter = "attention"
        · simp [getFilteredConversations, hq, hu, ha, List.mem_filter,
            conversationMatchesSearch_iff]
          exact fun _ => and_comm
        · simp [getFilteredConversations, hq, hu, ha, List.mem_filter,
            conversationMatchesSearch_iff]
          try tauto

/-- C2 (counterexample to the claim as stated): the phone number is matched
against the lowercased query without lowercasing the number itself
(`conversation.number.includes(query)`), so it is a case-sensitive test.  A
conversation whose number `"+52A"` case-insensitively contains the query
`"A"` is nevertheless dropped. -/
theorem getFilteredConversations_number_case_counterexample :
    caseInsensitiveContains "+52A" "A" = true ∧
    (getFilteredConversations
      { conversations :=
          [{ id := "c1", name := "x", initials := "X", number := some "+52A",
             src := "Whats", tags := [], unread := 0, needsAttention := false,
             messages := [] }],
        activeConversationId := none, isManualMode := false,
        isLoading := false, searchQuery := "A",
        selectedFilter := "all" }).length = 0 := by
  constructor
  · decide
  · decide

/-- C2 witness: the amended theorem applied at a concrete state with the
`unread` filter active — a conversation with `unread = 0` is not in the
result. -/
theorem getFilteredConversations_pure_and_filters_witness :
    ¬ ({ id := "c1", name := "Ana", initials := "A", number := none,
         src := "Whats", tags := [], unread := 0, needsAttention := false,
         messages := [] } ∈
      getFilteredConversations
        { conversations :=
            [{ id := "c1", name := "Ana", initials := "A", number := none,
               src := "Whats", tags := [], unread := 0,
               needsAttention := false, messages := [] }],
          activeConversationId := none, isManualMode := false,
          isLoading := false, searchQuery := "",
          selectedFilter := "unread" }) := by
  intro hmem
  have h := ((getFilteredConversations_pure_and_filters
    { conversations :=
        [{ id := "c1", name := "Ana", initials := "A", number := none,
           src := "Whats", tags := [], unread := 0,
           needsAttention := false, messages := [] }],
      activeConversationId := none, isManualMode := false,
      isLoading := false, searchQuery := "",
      selectedFilter := "unread" }).2.2 _).mp hmem
  exact absurd (h.2.2.1 rfl) (by decide)

/-! ### C3 -/

/-- C3: while the retry counter is below the ceiling of 5, a disconnect
schedules exactly one reconnection attempt after the fixed 5000 ms delay and
bumps the counter; a successful reconnect resets the counter to zero; and
from a fresh connection six consecutive failed-reconnect disconnects produce
five scheduled attempts followed by the terminal error callback with no
further scheduled reconnect. -/
theorem socket_reconnection_policy :
    socketMaxRetries = 5 ∧
    CONNECTION_RETRY_DELAY = 5000 ∧
    (∀ retryCount, retryCount < socketMaxRetries →
      socketStep retryCount SocketEvent.disconnect =
        (retryCount + 1,
          [SocketAction.callOnDisconnect,
           SocketAction.scheduleReconnect CONNECTION_RETRY_DELAY])) ∧
    (∀ retryCount,
      socketStep retryCount SocketEvent.connect =
        (0, [SocketAction.callOnConnect])) ∧
    socketRun 0 (List.replicate 6 SocketEvent.disconnect) =
      (5,
        [[SocketAction.callOnDisconnect, SocketAction.scheduleReconnect 5000],
         [SocketAction.callOnDisconnect, SocketAction.scheduleReconnect 5000],
         [SocketAction.callOnDisconnect, SocketAction.scheduleReconnect 5000],
         [SocketAction.callOnDisconnect, SocketAction.scheduleReconnect 5000],
         [SocketAction.callOnDisconnect, SocketAction.scheduleReconnect 5000],
         [SocketAction.callOnDisconnect, SocketAction.terminalError]]) := by
  refine ⟨rfl, rfl, ?_, fun _ => rfl, by decide⟩
  intro retryCount h
  simp [socketStep, handleReconnection, h]

/-- C3 witness: the fresh client's first disconnect schedules exactly one
reconnect after the fixed delay. -/
theorem socket_reconnection_policy_witness :
    socketStep 0 SocketEvent.disconnect =
      (1, [SocketAction.callOnDisconnect,
           SocketAction.scheduleReconnect CONNECTION_RETRY_DELAY]) :=
  socket_reconnection_policy.2.2.1 0 (by decide)

/-! ### C4 -/

/-- C4: while the operator-control (manual-mode) flag is false, sending a
message whose trimmed text is nonempty is rejected locally: the store state
and the message input are unchanged, and the only emitted effect is the
"Activate Take control" toast — in particular no send event (and hence no
network call) is emitted. -/
theorem handleSendMessage_rejected_without_manual_mode
    (state : StoreState) (messageInputValue : String)
    (hne : jsTrim messageInputValue ≠ "")
    (hmode : state.isManualMode = false) :
    handleSendMessage state messageInputValue =
      (state, messageInputValue,
        [UIEffect.toast "Activate \"Take control\" to intervene."]) := by
  simp [handleSendMessage, hne, hmode]

/-- C4 witness: the rejection at a concrete nonempty input in the initial
state (manual mode off). -/
theorem handleSendMessage_rejected_without_manual_mode_witness :
    handleSendMessage initialState "hola" =
      (initialState, "hola",
        [UIEffect.toast "Activate \"Take control\" to intervene."]) :=
  handleSendMessage_rejected_without_manual_mode initialState "hola"
    (by decide) rfl

/-! ### C5 -/

/-- C5: `mapMessageData` reproduces the fixed taxonomy for each defined wire
code 1–4 and falls back to the unknown/incoming entry
`{from: unknown, label: Unknown, color: in}` for every other code; being a
total function, it never throws. -/
theorem mapMessageData_taxonomy (msg : RawMessage) :
    (msg.typo = 1 →
      ((mapMessageData msg).origin, (mapMessageData msg).label,
        (mapMessageData msg).color) = ("bot", "🤖 Bot", "out")) ∧
    (msg.typo = 2 →
      ((mapMessageData msg).origin, (mapMessageData msg).label,
        (mapMessageData msg).color) = ("them", "👤 Client", "in")) ∧
    (msg.typo = 3 →
      ((mapMessageData msg).origin, (mapMessageData msg).label,
        (mapMessageData msg).color) = ("bot", "🤖 AI", "out")) ∧
    (msg.typo = 4 →
      ((mapMessageData msg).origin, (mapMessageData msg).label,
        (mapMessageData msg).color) = ("admin", "👨‍💼 Admin", "out")) ∧
    (msg.typo ≠ 1 → msg.typo ≠ 2 → msg.typo ≠ 3 → msg.typo ≠ 4 →
      ((mapMessageData msg).origin, (mapMessageData msg).label,
        (mapMessageData msg).color) = ("unknown", "Unknown", "in")) := by
  have base : ∀ m : RawMessage,
      ((mapMessageData m).origin, (mapMessageData m).label,
        (mapMessageData m).color) =
      (((MESSAGE_TYPES m.typo).getD
          { origin := "unknown", label := "Unknown", color := "in" }).origin,
       ((MESSAGE_TYPES m.typo).getD
          { origin := "unknown", label := "Unknown", color := "in" }).label,
       ((MESSAGE_TYPES m.typo).getD
          { origin := "unknown", label := "Unknown", color := "in" }).color) := by
    intro m
    simp only [mapMessageData]
    split <;> rfl
  have hnone : ∀ t : Nat, t ≠ 1 → t ≠ 2 → t ≠ 3 → t ≠ 4 →
      MESSAGE_TYPES t = none := by
    intro t h1 h2 h3 h4
    rcases t with _ | _ | _ | _ | _ | n
    · rfl
    · exact absurd rfl h1
    · exact absurd rfl h2
    · exact absurd rfl h3
    · exact absurd rfl h4
    · rfl
  refine ⟨?_, ?_, ?_, ?_, ?_⟩
  · intro h; rw [base]; simp [h, MESSAGE_TYPES]
  · intro h; rw [base]; simp [h, MESSAGE_TYPES]
  · intro h; rw [base]; simp [h, MESSAGE_TYPES]
  · intro h; rw [base]; simp [h, MESSAGE_TYPES]
  · intro h1 h2 h3 h4; rw [base]; simp [hnone msg.typo h1 h2 h3 h4]

/-- C5 witness: an undefined wire code (9) yields the unknown/incoming
fallback. -/
theorem mapMessageData_taxonomy_witness :
    ((mapMessageData
        { id := 9, typo := 9, message := some "hola", isaudio := false }).origin,
     (mapMessageData
        { id := 9, typo := 9, message := some "hola", isaudio := false }).label,
     (mapMessageData
        { id := 9, typo := 9, message := some "hola", isaudio := false }).color) =
      ("unknown", "Unknown", "in") :=
  (mapMessageData_taxonomy
    { id := 9, typo := 9, message := some "hola", isaudio := false }).2.2.2.2
    (by decide) (by decide) (by decide) (by decide)

/-! ### C6 -/

/-- C6: the thread renderer displays the active conversation's messages in
ascending order of their numeric id whatever the stored array order: the
rendered order is sorted by id and is a permutation of the stored messages,
and the concrete input with ids [5, 1, 3] renders as [1, 3, 5]. -/
theorem renderConversationThread_sorts_by_id (conversation : Conversation)
    (_hne : conversation.messages ≠ []) :
    List.Sorted msgIdLe (renderedMessageOrder conversation) ∧
    (renderedMessageOrder conversation).Perm conversation.messages ∧
    (sortMessagesById
      [{ id := 5, origin := "them", type := 2, label := "👤 Client",
         color := "in", text := some "a", isAudio := false,
         audioData := none, audioUrl := none },
       { id := 1, origin := "them", type := 2, label := "👤 Client",
         color := "in", text := some "b", isAudio := false,
         audioData := none, audioUrl := none },
       { id := 3, origin := "them", type := 2, label := "👤 Client",
         color := "in", text := some "c", isAudio := false,
         audioData := none, audioUrl := none }]).map (fun m => m.id) =
      [1, 3, 5] :=
  ⟨List.sorted_insertionSort msgIdLe conversation.messages,
   List.perm_insertionSort msgIdLe conversation.messages,
   by decide⟩

/-- C6 witness: the sort invariant at a concrete nonempty conversation. -/
theorem renderConversationThread_sorts_by_id_witness :
    List.Sorted msgIdLe (renderedMessageOrder
      { id := "c1", name := "Ana", initials := "A", number := none,
        src := "Whats", tags := [], unread := 0, needsAttention := false,
        messages :=
          [{ id := 5, origin := "them", type := 2, label := "👤 Client",
             color := "in", text := some "a", isAudio := false,
             audioData := none, audioUrl := none },
           { id := 1, origin := "them", type := 2, label := "👤 Client",
             color := "in", text := some "b", isAudio := false,
             audioData := none, audioUrl := none }] }) :=
  (renderConversationThread_sorts_by_id
    { id := "c1", name := "Ana", initials := "A", number := none,
      src := "Whats", tags := [], unread := 0, needsAttention := false,
      messages :=
        [{ id := 5, origin := "them", type := 2, label := "👤 Client",
           color := "in", text := some "a", isAudio := false,
           audioData := none, audioUrl := none },
         { id := 1, origin := "them", type := 2, label := "👤 Client",
           color := "in", text := some "b", isAudio := false,
           audioData := none, audioUrl := none }] } (by decide)).1

/-! ### C8 -/

/-- C8: for an incoming message flagged as audio with a nonempty payload, the
mapper attaches a playable handle exactly when the payload — after stripping
any leading data-URI header — is well-formed base64 (it passes the validation
regex and `atob` decodes it); otherwise `audioUrl` is `none`.  Both
`mapMessageData` and `convertBase64ToAudioUrl` are total functions: every
failure path of the source is a caught exception that becomes `null`,
so no exception escapes. -/
theorem mapMessageData_audio_handle (msg : RawMessage) (payload : String)
    (hA : msg.isaudio = true) (hm : msg.message = some payload)
    (hne : payload ≠ "") :
    ((mapMessageData msg).audioUrl.isSome = true ↔
      wellFormedBase64 (strippedBase64 payload) = true) := by
  have htr : optStringTruthy msg.message = true := by
    rw [hm]
    simp [optStringTruthy, hne]
  have hurl : (mapMessageData msg).audioUrl =
      convertBase64ToAudioUrl payload := by
    simp [mapMessageData, hA, hm, optStringTruthy, bne_iff_ne, hne]
  rw [hurl]
  simp only [convertBase64ToAudioUrl, if_neg hne]
  by_cases hv : validBase64Format (strippedBase64 payload)
  · cases hd : atobDecode (strippedBase64 payload) <;>
      simp [wellFormedBase64, hv, hd]
  · simp [wellFormedBase64, hv]

/-- C8 witness: a non-base64 audio payload maps to a record with no playable
handle, while a well-formed payload maps to one with a handle. -/
theorem mapMessageData_audio_handle_witness :
    (mapMessageData
      { id := 86, typo := 4, message := some "@@@",
        isaudio := true }).audioUrl.isSome = false ∧
    (mapMessageData
      { id := 87, typo := 4, message := some "QUJD",
        isaudio := true }).audioUrl.isSome = true := by
  constructor
  · have h := mapMessageData_audio_handle
      { id := 86, typo := 4, message := some "@@@", isaudio := true }
      "@@@" rfl rfl (by decide)
    have hbad : wellFormedBase64 (strippedBase64 "@@@") = false := by decide
    rw [hbad] at h
    simp only [Bool.false_eq_true, iff_false, Bool.not_eq_true] at h
    exact h
  · exact (mapMessageData_audio_handle
      { id := 87, typo := 4, message := some "QUJD", isaudio := true }
      "QUJD" rfl rfl (by decide)).mpr (by decide)

/-! ### C9 -/

/-- The `split(' ')`/`join('')` route of `getInitials` picks up exactly the
first character of every nonempty space-separated token: empty chunks
produced by consecutive separators contribute nothing (their `[0]` is
`undefined`, which `join` drops). -/
theorem filterMap_head_splitOnSpaceAux (cs : List Char) :
    ∀ acc, (splitOnSpaceAux cs acc).filterMap List.head? =
      (tokensByAux (fun c => c == ' ') cs acc).filterMap List.head? := by
  induction cs with
  | nil =>
      intro acc
      cases acc with
      | nil => rfl
      | cons a as => simp [splitOnSpaceAux, tokensByAux]
  | cons c rest ih =>
      intro acc
      by_cases hc : c == ' '
      · cases acc with
        | nil => simp [splitOnSpaceAux, tokensByAux, hc, List.filterMap_cons, ih]
        | cons a as =>
            rw [show splitOnSpaceAux (c :: rest) (a :: as) =
                (a :: as).reverse :: splitOnSpaceAux rest [] from by
              simp [splitOnSpaceAux, hc]]
            rw [show tokensByAux (fun c => c == ' ') (c :: rest) (a :: as) =
                (a :: as).reverse :: tokensByAux (fun c => c == ' ') rest []
              from by simp [tokensByAux, hc]]
            rw [List.filterMap_cons, List.filterMap_cons]
            cases hh : ((a :: as).reverse).head? <;> simp [hh, ih]
      · simp only [splitOnSpaceAux, tokensByAux, hc, if_neg]
        exact ih (c :: acc)

/-- C9 (counterexample to the claim as stated): the source splits the name on
single spaces (`split(' ')`), not on whitespace, so the tab-separated name
`"Ana\tRuiz"` yields initials `"A"` where the claim's whitespace-token rule
gives `"AR"`; and `needsAttention` is `!interview`, JavaScript truthiness, so
the present, non-null value `false` still sets `needsAttention` — the claim's
"true exactly when the interview field is absent/null" fails. -/
theorem mapConversationData_counterexample :
    (mapConversationData
      { name := some "Ana\tRuiz", number := some "+521",
        interview := JsValue.jsBool false, history := some [] } 0).initials =
      some "A" ∧
    whitespaceTokenInitials "Ana\tRuiz" = "AR" ∧
    (mapConversationData
      { name := some "Ana\tRuiz", number := some "+521",
        interview := JsValue.jsBool false, history := some [] } 0).needsAttention =
      true ∧
    JsValue.jsBool false ≠ JsValue.jsNull ∧
    JsValue.jsBool false ≠ JsValue.undef := by
  exact ⟨by decide, by decide, by decide, by decide, by decide⟩

/-- C9 (amended): the mapped conversation's initials are the first character
of each nonempty space-separated (U+0020) token of the name, uppercased and
truncated to two characters; `needsAttention` is true exactly when the
interview field is absent/null or otherwise falsy (`false`, `0`, `""`); an
absent name yields no initials (and nothing throws); an empty history yields
an empty message sequence; and the record
`{name: "Ana Ruiz", interview: null, history: []}` maps to initials `"AR"`
with `needsAttention` true. -/
theorem mapConversationData_spec (raw : RawConversation) (idx : Nat) :
    ((mapConversationData raw idx).needsAttention = true ↔
      (raw.interview = JsValue.undef ∨ raw.interview = JsValue.jsNull ∨
       raw.interview = JsValue.jsBool false ∨ raw.interview = JsValue.jsNum 0 ∨
       raw.interview = JsValue.jsStr "")) ∧
    (∀ n, raw.name = some n →
      (mapConversationData raw idx).initials =
        some (String.mk ((((tokensBy (fun ch => ch == ' ') n.toList).filterMap
          List.head?).map Char.toUpper).take 2))) ∧
    (raw.name = none → (mapConversationData raw idx).initials = none) ∧
    (raw.history = some [] → (mapConversationData raw idx).messages = []) ∧
    (mapConversationData
      { name := some "Ana Ruiz", number := some "+5215550000000",
        interview := JsValue.jsNull, history := some [] } 0).initials =
      some "AR" ∧
    (mapConversationData
      { name := some "Ana Ruiz", number := some "+5215550000000",
        interview := JsValue.jsNull, history := some [] } 0).needsAttention =
      true := by
  refine ⟨?_, ?_, ?_, ?_, by decide, by decide⟩
  · show (!raw.interview.truthy) = true ↔ _
    cases hv : raw.interview <;> simp [JsValue.truthy]
  · intro n hn
    show getInitials raw.name = _
    rw [hn]
    simp only [getInitials, Option.map_some', splitOnSpace, tokensBy]
    rw [filterMap_head_splitOnSpaceAux]
  · intro hn
    show getInitials raw.name = none
    rw [hn]
    rfl
  · intro hh
    show ((raw.history.getD []).map mapMessageData) = []
    rw [hh]
    rfl

/-- C9 witness: the amended initials rule applied at a concrete record. -/
theorem mapConversationData_spec_witness :
    (mapConversationData
      { name := some "Ana Ruiz", number := some "+521",
        interview := JsValue.jsNull, history := some [] } 3).initials =
      some (String.mk ((((tokensBy (fun ch => ch == ' ')
        "Ana Ruiz".toList).filterMap List.head?).map Char.toUpper).take 2)) :=
  (mapConversationData_spec
    { name := some "Ana Ruiz", number := some "+521",
      interview := JsValue.jsNull, history := some [] } 3).2.1 "Ana Ruiz" rfl
